import Mathlib

/-!
Shallow embedding of the continuous-transcription pipeline in `main.py`
(classes `ContinuousAudioRecorder` and `ParallelTranscriptionClient`).

Conventions of the embedding:
* raw audio chunks are byte lists (`List Nat`); a pop from the capture
  buffer either yields a chunk or times out, so the sequence of pop
  outcomes seen by `get_audio_segment` is an oracle `Nat → Option Chunk`
  (iteration index ↦ outcome of `audio_queue.get(timeout=2.0)`);
* Python `float` arithmetic on the small positive quantities involved is
  modelled exactly by `ℚ`, and `int(...)` by truncation toward zero;
* the session JSON file is a `SessionData` value; a possibly missing file
  is `Option SessionData`;
* the set of temporary segment files on disk is a `List String`;
  `os.remove` fails (raises) exactly when the path is absent.
-/

namespace Whisper

/-! ### Python string primitives used by the source -/

/-- The ASCII whitespace characters stripped by Python `str.strip()`. -/
def pyIsSpace (c : Char) : Bool :=
  c = ' ' || c = '\t' || c = '\n' || c = '\r' || c = '\x0b' || c = '\x0c'

/-- Python `str.strip()` on the character list. -/
def pyStripList (s : List Char) : List Char :=
  ((s.dropWhile pyIsSpace).reverse.dropWhile pyIsSpace).reverse

/-- Python `str.strip()`. -/
def pyStrip (s : String) : String :=
  String.mk (pyStripList s.toList)

/-- Does `p` occur at the head of `s`? -/
def matchesAt : List Char → List Char → Bool
  | [], _ => true
  | _ :: _, [] => false
  | p :: ps, c :: cs => p = c && matchesAt ps cs

/-- Left-to-right, non-overlapping deletion of every occurrence of the
nonempty pattern `p :: ps`, with explicit fuel (one unit per consumed
character suffices). This is Python `s.replace(pat, "")` with an empty
replacement. -/
def removeOccFuel (p : Char) (ps : List Char) : Nat → List Char → List Char
  | 0, s => s
  | _ + 1, [] => []
  | fuel + 1, c :: rest =>
    if matchesAt (p :: ps) (c :: rest) then
      removeOccFuel p ps fuel (rest.drop ps.length)
    else
      c :: removeOccFuel p ps fuel rest

/-- Python `s.replace(pat, "")` (the only replacement form the source uses). -/
def pyReplace (s pat : String) : String :=
  match pat.toList with
  | [] => s
  | p :: ps => String.mk (removeOccFuel p ps s.toList.length s.toList)

/-! ### `ContinuousAudioRecorder.get_audio_segment` -/

/-- Python `int(q)`: truncation toward zero. -/
def pyInt (q : ℚ) : ℤ :=
  if 0 ≤ q then ⌊q⌋ else ⌈q⌉

/-- Source line 85 of main.py:
`frames_needed = int(self.sample_rate / self.chunk_size * duration)`. -/
def frames_needed_calc (sample_rate chunk_size : Nat) (duration : ℚ) : Nat :=
  (pyInt ((sample_rate : ℚ) / (chunk_size : ℚ) * duration)).toNat

/-- One chunk of raw PCM bytes, as produced by `stream.read`. -/
abbrev Chunk := List Nat

/-- The `for i in range(frames_needed)` loop of `get_audio_segment`:
each iteration performs exactly one `audio_queue.get(timeout=2.0)`;
a successful pop appends the chunk to `frames`, a `queue.Empty` timeout
just continues to the next iteration. Returns the collected frames and
the number of pop attempts performed. -/
def segLoop (oracle : Nat → Option Chunk) (frames : List Chunk) (pops : Nat) :
    List Nat → List Chunk × Nat
  | [] => (frames, pops)
  | i :: rest =>
    match oracle i with
    | some f => segLoop oracle (frames ++ [f]) (pops + 1) rest
    | none => segLoop oracle frames (pops + 1) rest

/-- The temporary WAV artifact produced by `get_audio_segment`: the chunks
collected in pop order, and the payload (the chunks joined into one byte
string) written by
`wf.writeframes`. -/
structure Segment where
  frames : List Chunk
  payload : List Nat
  deriving DecidableEq, Repr

/-- Embedding of `ContinuousAudioRecorder.get_audio_segment` (main.py lines 83–124):
computes `frames_needed`, pops that many times from the capture buffer,
returns `none` (Python `None`) when no frame was collected, otherwise the
segment artifact holding the concatenation of the collected frames. -/
def get_audio_segment (oracle : Nat → Option Chunk)
    (sample_rate chunk_size : Nat) (duration : ℚ) : Option Segment :=
  let frames_needed := frames_needed_calc sample_rate chunk_size duration
  let frames := (segLoop oracle [] 0 (List.range frames_needed)).1
  if frames = [] then none
  else some { frames := frames, payload := frames.flatten }

/-! ### Session store (`ParallelTranscriptionClient` JSON file) -/

/-- One element of the `"transcriptions"` array. -/
structure Entry where
  timestamp : String
  text : String
  deriving DecidableEq, Repr

/-- The `"session"` object. A missing key is `none` (the recreated file of
the `FileNotFoundError` branch of `save_transcription` has `"session": {}`,
i.e. every field `none`). -/
structure SessionMeta where
  start_time : Option String := none
  session_id : Option String := none
  language : Option String := none
  model : Option String := none
  status : Option String := none
  end_time : Option String := none
  total_transcriptions : Option Nat := none
  deriving DecidableEq, Repr

/-- Value `{"session": {}}`. -/
def emptySessionMeta : SessionMeta := {}

/-- The whole JSON document. -/
structure SessionData where
  session : SessionMeta
  transcriptions : List Entry
  deriving DecidableEq, Repr

/-- Embedding of `ParallelTranscriptionClient.init_json_file` (main.py lines 169–185). -/
def init_json_file (start_time session_id lang model : String) : SessionData :=
  { session :=
      { start_time := some start_time
        session_id := some session_id
        language := some lang
        model := some model
        status := some "active" }
    transcriptions := [] }

/-- The `transcription_entry` built by `save_transcription`
(main.py lines 265–274): a `None` text becomes `""`, and the stored text
is stripped. -/
def mkEntry (text : Option String) (timestamp : String) : Entry :=
  { timestamp := timestamp, text := pyStrip (text.getD "") }

/-- Embedding of `ParallelTranscriptionClient.save_transcription` (main.py lines
263–287), body under `self.json_lock`: read the file (a missing file
yields `{"session": {}, "transcriptions": []}`), append the entry, write
back. -/
def save_transcription (file : Option SessionData) (text : Option String)
    (timestamp : String) : SessionData :=
  let data := file.getD { session := emptySessionMeta, transcriptions := [] }
  { data with transcriptions := data.transcriptions ++ [mkEntry text timestamp] }

/-! ### `ParallelTranscriptionClient._transcribe_single` -/

/-- Outcome of the external engine call
`self.whisper_model.transcribe(...)`: `ok raw` is a normal return with
`result["text"] = raw`; `exn` is any raised exception. -/
inductive EngineResult where
  | ok (raw : String)
  | exn
  deriving DecidableEq, Repr

/-- Source line 210 of main.py: the fixed artifact token list
`<|`, `|>`, `[BLANK_AUDIO]`, `(SILENCE)`, `...`. -/
def artifacts : List String := ["<|", "|>", "[BLANK_AUDIO]", "(SILENCE)", "..."]

/-- Embedding of `ParallelTranscriptionClient._transcribe_single` (main.py lines
187–218): returns `""` when no model is loaded, catches every engine
exception into `""`, and otherwise strips the raw text and deletes each
artifact token in turn. -/
def transcribe_single (model_loaded : Bool) (engine : EngineResult) : String :=
  if model_loaded = false then ""
  else
    match engine with
    | .exn => ""
    | .ok raw =>
      let text := pyStrip raw
      artifacts.foldl (fun t a => pyReplace t a) text

/-! ### Dispatcher result consumer and finalization -/

/-- A pending entry of `self.pending_transcriptions`: the resolved future
value (`_transcribe_single` always resolves to a string), the temp file
path, the submission timestamp, and whether `future.done()`. -/
structure Task where
  segment_id : Nat
  text : String
  audio_file : String
  timestamp : String
  done : Bool
  deriving DecidableEq, Repr

/-- The shared state touched by the consumer: the session JSON file
(`none` = missing), the set of temporary files on disk, and the
pending-task table. -/
structure PipelineState where
  jsonFile : Option SessionData
  files : List String
  pending : List Task
  deriving DecidableEq, Repr

/-- Embedding of `os.remove(path)`: deletes the file, raising (`Except.error`) when it
does not exist. -/
def pyRemove (fs : List String) (path : String) : Except Unit (List String) :=
  if path ∈ fs then .ok (fs.erase path) else .error ()

/-- The guarded deletion of the consumer (main.py lines 244–248): `os.remove`
inside `try/except`, so a failure is swallowed and the state is left as
it was. -/
def pyRemoveNoRaise (fs : List String) (path : String) : List String :=
  match pyRemove fs path with
  | .ok fs' => fs'
  | .error _ => fs

/-- The body of the `for segment_id, task in pending.items()` loop of
`check_completed_transcriptions` (main.py lines 234–255) applied to each
task in table order: the text of a done task is saved unconditionally and its
audio file deleted (failure swallowed); a task not yet done is skipped. -/
def processDone (json : Option SessionData) (fs : List String) :
    List Task → Option SessionData × List String
  | [] => (json, fs)
  | t :: rest =>
    if t.done then
      processDone (some (save_transcription json (some t.text) t.timestamp))
        (pyRemoveNoRaise fs t.audio_file) rest
    else
      processDone json fs rest

/-- Embedding of `ParallelTranscriptionClient.check_completed_transcriptions`
(main.py lines 230–261): process every done task, then delete the
completed ids from the pending table. -/
def check_completed_transcriptions (st : PipelineState) : PipelineState :=
  let r := processDone st.jsonFile st.files st.pending
  { jsonFile := r.1
    files := r.2
    pending := st.pending.filter (fun t => !t.done) }

/-- The `while self.pending_transcriptions:` drain loop of
`finalize_session` (main.py lines 294–298), with enough fuel for the
states we reason about (when every pending future is done, one pass
empties the table). -/
def drainLoop : Nat → PipelineState → PipelineState
  | 0, st => st
  | fuel + 1, st =>
    if st.pending = [] then st
    else drainLoop fuel (check_completed_transcriptions st)

/-- Embedding of `ParallelTranscriptionClient.finalize_session` (main.py lines
289–319): drain the pending table, then under the lock set `end_time`,
`status = "completed"` and `total_transcriptions = len(transcriptions)`;
a missing file makes the final write raise `FileNotFoundError`, which is
caught and leaves everything untouched. -/
def finalize_session (st : PipelineState) (end_time : String) : PipelineState :=
  let st1 := drainLoop (st.pending.length + 1) st
  match st1.jsonFile with
  | none => st1
  | some data =>
    { st1 with
        jsonFile := some
          { data with
              session :=
                { data.session with
                    end_time := some end_time
                    status := some "completed"
                    total_transcriptions := some data.transcriptions.length } } }

/-! ### Derived definitions used in the statements -/

/-- The chunks the loop collects: the successful pops among the first `n`
oracle outcomes, in pop order. -/
def collected (oracle : Nat → Option Chunk) (n : Nat) : List Chunk :=
  (List.range n).filterMap oracle

/-- 10 chunks of the end-to-end scenario pre-loaded in the capture buffer:
pop `i` returns chunk `[i]` while the queue is nonempty. -/
def oracle10 : Nat → Option Chunk := fun i => if i < 10 then some [i] else none

/-- An oracle with one successful pop and timeouts everywhere else. -/
def oracleOne : Nat → Option Chunk := fun i => if i = 0 then some [7] else none

/-- The entries `check_completed_transcriptions` saves for the done tasks
of the pending table, in table order. -/
def doneEntries (l : List Task) : List Entry :=
  (l.filter fun t => t.done).map fun t => mkEntry (some t.text) t.timestamp

/-- The effect of one loop iteration of `check_completed_transcriptions`
on the set of files on disk. -/
def filesStep (fs : List String) (t : Task) : List String :=
  if t.done then fs.erase t.audio_file else fs

/-- The post-processing as the spec words it: strip, then delete each
artifact token in the fixed order of `artifacts`. -/
def stripArtifactTokens (t : String) : String :=
  pyReplace (pyReplace (pyReplace (pyReplace (pyReplace t "<|") "|>")
    "[BLANK_AUDIO]") "(SILENCE)") "..."

/-- A pending table entry whose engine call failed (empty text), used to
instantiate the consumer theorems. -/
def taskA : Task :=
  { segment_id := 0, text := "", audio_file := "segA", timestamp := "T0", done := true }

/-- A done task with nonempty text. -/
def taskB : Task :=
  { segment_id := 1, text := "hi", audio_file := "segB", timestamp := "T1", done := true }

/-- A concrete dispatcher state: a freshly initialized session record, one
temporary file on disk, and one completed task whose result is empty. -/
def stateA : PipelineState :=
  { jsonFile := some (init_json_file "S" "I" "fr" "large")
    files := ["segA"]
    pending := [taskA] }

/-! ### Lemmas about the segmenter loop -/

theorem segLoop_eq (oracle : Nat → Option Chunk) :
    ∀ (l : List Nat) (frames : List Chunk) (pops : Nat),
      segLoop oracle frames pops l = (frames ++ l.filterMap oracle, pops + l.length) := by
  intro l
  induction l with
  | nil => intro frames pops; simp [segLoop]
  | cons i rest ih =>
    intro frames pops
    cases h : oracle i with
    | some f => simp [segLoop, h, ih, List.filterMap_cons]; omega
    | none => simp [segLoop, h, ih, List.filterMap_cons]; omega

theorem get_audio_segment_eq (oracle : Nat → Option Chunk)
    (r c : Nat) (d : ℚ) :
    get_audio_segment oracle r c d =
      if collected oracle (frames_needed_calc r c d) = [] then none
      else some { frames := collected oracle (frames_needed_calc r c d)
                  payload := (collected oracle (frames_needed_calc r c d)).flatten } := by
  simp only [get_audio_segment, collected, segLoop_eq, List.nil_append]

theorem length_filterMap_add_none {α β : Type} (f : α → Option β) :
    ∀ l : List α,
      (l.filterMap f).length + (l.filter fun a => (f a).isNone).length = l.length := by
  intro l
  induction l with
  | nil => simp
  | cons a rest ih =>
    cases h : f a with
    | some b => simp [List.filterMap_cons, List.filter_cons, h]; omega
    | none => simp [List.filterMap_cons, List.filter_cons, h]; omega

/-- The concrete frame count of the end-to-end scenario of the spec. -/
theorem frames_needed_2205_1024 : frames_needed_calc 22050 1024 (46/100) = 9 := by
  unfold frames_needed_calc pyInt
  rw [if_pos (by norm_num)]
  norm_num [Int.floor_eq_iff]
  rfl

/-! ### C1 -/

/-- C1 counterexample: `get_audio_segment` computes `frames_needed` by
truncation (`int(...)`), not by `ceil`: at 22050 Hz with 1024-frame chunks
and duration 0.46 s it computes 9, while `ceil(0.46 × 22050 / 1024) = 10`;
accordingly `collect` on 10 pre-loaded chunks returns a 9-chunk segment,
not 10. -/
theorem C1_counterexample :
    frames_needed_calc 22050 1024 (46/100) = 9 ∧
    ⌈(46/100 : ℚ) * 22050 / 1024⌉ = 10 ∧
    (get_audio_segment oracle10 22050 1024 (46/100)).map (fun s => s.frames.length)
      = some 9 := by
  refine ⟨frames_needed_2205_1024, by norm_num [Int.ceil_eq_iff], ?_⟩
  rw [get_audio_segment_eq]
  rw [show collected oracle10 (frames_needed_calc 22050 1024 (46/100))
        = [[0],[1],[2],[3],[4],[5],[6],[7],[8]] by
      rw [collected, frames_needed_2205_1024]; decide]
  decide

/-- C1 (amended): `frames_needed` is the truncation
`int(duration × sampleRate / chunkFrameCount)` (floor for the nonnegative
values in use), and in the end-to-end scenario (10 chunks of 1024 frames
pre-loaded at 22050 Hz, duration 0.46 s) `get_audio_segment` targets 9
chunks and returns the segment built from the first 9 chunks in order. -/
theorem C1_frames_needed_trunc :
    (∀ (r c : Nat) (d : ℚ),
      frames_needed_calc r c d = (pyInt (d * r / c)).toNat) ∧
    get_audio_segment oracle10 22050 1024 (46/100)
      = some { frames := [[0],[1],[2],[3],[4],[5],[6],[7],[8]]
               payload := [0,1,2,3,4,5,6,7,8] } := by
  constructor
  · intro r c d
    unfold frames_needed_calc
    rw [div_mul_eq_mul_div, mul_comm]
  · rw [get_audio_segment_eq]
    rw [show collected oracle10 (frames_needed_calc 22050 1024 (46/100))
          = [[0],[1],[2],[3],[4],[5],[6],[7],[8]] by
        rw [collected, frames_needed_2205_1024]; decide]
    decide

/-! ### C5 -/

/-- C5: if no chunk at all is obtained within the `frames_needed` pop
attempts, `get_audio_segment` returns `None` (and hence creates no WAV
artifact — the early return precedes the file write). -/
theorem C5_zero_chunks_none (oracle : Nat → Option Chunk) (r c : Nat) (d : ℚ)
    (h : collected oracle (frames_needed_calc r c d) = []) :
    get_audio_segment oracle r c d = none := by
  rw [get_audio_segment_eq, if_pos h]

/-- Witness for C5: a capture buffer that always times out yields `None`. -/
theorem C5_zero_chunks_none_witness :
    get_audio_segment (fun _ => none) 44100 2048 10 = none :=
  C5_zero_chunks_none (fun _ => none) 44100 2048 10 (by simp [collected])

/-! ### C6 -/

/-- C6: when at least one chunk is collected but fewer than
`frames_needed` (pop timeouts consumed the other iterations),
`get_audio_segment` still returns a segment, and that segment consists of
exactly the collected chunks in pop order, its payload being their
concatenation (the joined byte string). -/
theorem C6_partial_segment_kept (oracle : Nat → Option Chunk) (r c : Nat) (d : ℚ)
    (h1 : collected oracle (frames_needed_calc r c d) ≠ [])
    (h2 : (collected oracle (frames_needed_calc r c d)).length
            < frames_needed_calc r c d) :
    get_audio_segment oracle r c d
      = some { frames := collected oracle (frames_needed_calc r c d)
               payload := (collected oracle (frames_needed_calc r c d)).flatten } := by
  rw [get_audio_segment_eq, if_neg h1]

theorem frames_needed_44100_2048 : frames_needed_calc 44100 2048 10 = 215 := by
  unfold frames_needed_calc pyInt
  rw [if_pos (by norm_num)]
  norm_num [Int.floor_eq_iff]
  rfl

/-- Witness for C6: with 215 frames targeted but a single successful pop,
the one-chunk segment is returned rather than discarded. -/
theorem C6_partial_segment_kept_witness :
    get_audio_segment oracleOne 44100 2048 10
      = some { frames := collected oracleOne (frames_needed_calc 44100 2048 10)
               payload := (collected oracleOne (frames_needed_calc 44100 2048 10)).flatten } ∧
    collected oracleOne (frames_needed_calc 44100 2048 10) = [[7]] := by
  have hcoll : collected oracleOne (frames_needed_calc 44100 2048 10) = [[7]] := by
    rw [collected, frames_needed_44100_2048]; decide
  refine ⟨C6_partial_segment_kept oracleOne 44100 2048 10 ?_ ?_, hcoll⟩
  · rw [hcoll]; decide
  · rw [hcoll, frames_needed_44100_2048]; decide

/-! ### C9 -/

/-- C9: the collection loop of `get_audio_segment` always terminates after
exactly `frames_needed` pop attempts — a timed-out pop permanently consumes
its iteration — and the collected frame list has exactly
`frames_needed − timeouts` chunks. -/
theorem C9_bounded_pop_attempts (oracle : Nat → Option Chunk) (r c : Nat) (d : ℚ) :
    (segLoop oracle [] 0 (List.range (frames_needed_calc r c d))).2
        = frames_needed_calc r c d ∧
    (segLoop oracle [] 0 (List.range (frames_needed_calc r c d))).1.length
        = frames_needed_calc r c d
          - ((List.range (frames_needed_calc r c d)).filter
              (fun i => (oracle i).isNone)).length := by
  rw [segLoop_eq]
  have h := length_filterMap_add_none oracle (List.range (frames_needed_calc r c d))
  simp only [List.length_range] at h
  simp only [List.nil_append, List.length_range]
  omega

/-! ### Lemmas about the store and the result consumer -/

theorem pyRemoveNoRaise_eq_erase (fs : List String) (p : String) :
    pyRemoveNoRaise fs p = fs.erase p := by
  unfold pyRemoveNoRaise pyRemove
  by_cases h : p ∈ fs
  · rw [if_pos h]
  · rw [if_neg h, List.erase_of_not_mem h]

theorem save_transcription_some (d : SessionData) (text : Option String) (ts : String) :
    save_transcription (some d) text ts
      = { session := d.session
          transcriptions := d.transcriptions ++ [mkEntry text ts] } := rfl

theorem processDone_fst :
    ∀ (l : List Task) (d : SessionData) (fs : List String),
      (processDone (some d) fs l).1
        = some { d with transcriptions := d.transcriptions ++ doneEntries l } := by
  intro l
  induction l with
  | nil => intro d fs; simp [processDone, doneEntries]
  | cons t rest ih =>
    intro d fs
    by_cases h : t.done
    · simp only [processDone, if_pos h, save_transcription_some, ih]
      simp [doneEntries, List.filter_cons, h]
    · simp only [processDone, if_neg h, ih]
      simp [doneEntries, List.filter_cons, h]

theorem processDone_snd :
    ∀ (l : List Task) (j : Option SessionData) (fs : List String),
      (processDone j fs l).2 = l.foldl filesStep fs := by
  intro l
  induction l with
  | nil => intro j fs; simp [processDone]
  | cons t rest ih =>
    intro j fs
    by_cases h : t.done
    · simp only [processDone, if_pos h, ih, List.foldl_cons, filesStep,
        pyRemoveNoRaise_eq_erase]
    · simp only [processDone, if_neg h, ih, List.foldl_cons, filesStep]

theorem foldl_filesStep_subset :
    ∀ (l : List Task) (fs : List String), l.foldl filesStep fs ⊆ fs := by
  intro l
  induction l with
  | nil => intro fs; simp
  | cons t rest ih =>
    intro fs
    rw [List.foldl_cons]
    refine (ih (filesStep fs t)).trans ?_
    unfold filesStep
    by_cases h : t.done
    · rw [if_pos h]; exact List.erase_subset _ _
    · rw [if_neg h]; exact fun x hx => hx

theorem foldl_filesStep_nodup :
    ∀ (l : List Task) (fs : List String), fs.Nodup → (l.foldl filesStep fs).Nodup := by
  intro l
  induction l with
  | nil => intro fs h; simpa using h
  | cons t rest ih =>
    intro fs h
    rw [List.foldl_cons]
    refine ih _ ?_
    unfold filesStep
    by_cases hd : t.done
    · rw [if_pos hd]; exact h.erase _
    · rw [if_neg hd]; exact h

theorem check_completed_jsonFile (d : SessionData) (fs : List String)
    (pending : List Task) :
    (check_completed_transcriptions ⟨some d, fs, pending⟩).jsonFile
      = some { d with transcriptions := d.transcriptions ++ doneEntries pending } := by
  unfold check_completed_transcriptions
  exact processDone_fst pending d fs

theorem check_completed_files (j : Option SessionData) (fs : List String)
    (pending : List Task) :
    (check_completed_transcriptions ⟨j, fs, pending⟩).files
      = pending.foldl filesStep fs := by
  unfold check_completed_transcriptions
  exact processDone_snd pending j fs

theorem check_completed_pending (j : Option SessionData) (fs : List String)
    (pending : List Task) :
    (check_completed_transcriptions ⟨j, fs, pending⟩).pending
      = pending.filter (fun t => !t.done) := rfl

theorem drainLoop_empty (fuel : Nat) (st : PipelineState) (h : st.pending = []) :
    drainLoop fuel st = st := by
  cases fuel with
  | zero => rfl
  | succ k => unfold drainLoop; rw [if_pos h]

theorem foldl_save_transcription :
    ∀ (calls : List (Option String × String)) (d : SessionData),
      calls.foldl (fun acc c => save_transcription (some acc) c.1 c.2) d
        = { session := d.session
            transcriptions := d.transcriptions ++ calls.map fun c => mkEntry c.1 c.2 } := by
  intro calls
  induction calls with
  | nil => intro d; simp
  | cons c rest ih =>
    intro d
    rw [List.foldl_cons, save_transcription_some, ih]
    simp

/-! ### C2 -/

/-- C2 counterexample: a completed task whose result text is empty is NOT
discarded — `check_completed_transcriptions` calls `save_transcription`
unconditionally, so the empty-text entry lands in the session record. -/
theorem C2_counterexample :
    (check_completed_transcriptions stateA).jsonFile
      = some { session := (init_json_file "S" "I" "fr" "large").session
               transcriptions := [{ timestamp := "T0", text := "" }] } := by
  decide

/-- C2 (amended): the result consumer saves every completed result
unconditionally: for each done task, `save_transcription` is called with
the text of the task — empty or whitespace-only text included — and the
stripped entry is appended to the session record in table order. -/
theorem C2_saves_all_results (d : SessionData) (fs : List String)
    (pending : List Task) :
    (check_completed_transcriptions ⟨some d, fs, pending⟩).jsonFile
      = some { d with transcriptions := d.transcriptions ++ doneEntries pending } :=
  check_completed_jsonFile d fs pending

/-! ### C3 -/

/-- C3: when every pending future has resolved, `finalize_session` drains
the pending table to empty and then writes the record with `end_time`
set, `status = "completed"`, and `total_transcriptions` equal to the
length of the transcriptions list at that moment. -/
theorem C3_finalize_session (d : SessionData) (fs : List String)
    (pending : List Task) (endT : String)
    (hdone : ∀ t ∈ pending, t.done = true) :
    (finalize_session ⟨some d, fs, pending⟩ endT).pending = [] ∧
    (finalize_session ⟨some d, fs, pending⟩ endT).jsonFile
      = some { session :=
                 { d.session with
                     end_time := some endT
                     status := some "completed"
                     total_transcriptions :=
                       some (d.transcriptions ++ doneEntries pending).length }
               transcriptions := d.transcriptions ++ doneEntries pending } := by
  have hdrain :
      drainLoop (pending.length + 1) ⟨some d, fs, pending⟩
        = if pending = [] then ⟨some d, fs, pending⟩
          else check_completed_transcriptions ⟨some d, fs, pending⟩ := by
    by_cases hp : pending = []
    · rw [if_pos hp]
      exact drainLoop_empty _ _ hp
    · rw [if_neg hp]
      unfold drainLoop
      rw [if_neg hp]
      obtain ⟨p, rest, rfl⟩ := List.exists_cons_of_ne_nil hp
      apply drainLoop_empty
      rw [check_completed_pending]
      rw [List.filter_eq_nil_iff]
      intro t ht
      simp [hdone t ht]
  by_cases hp : pending = []
  · subst hp
    unfold finalize_session
    rw [hdrain]
    simp [doneEntries]
  · unfold finalize_session
    rw [hdrain, if_neg hp]
    rw [show check_completed_transcriptions ⟨some d, fs, pending⟩
          = ⟨some { d with transcriptions := d.transcriptions ++ doneEntries pending },
             pending.foldl filesStep fs,
             pending.filter (fun t => !t.done)⟩ by
      simp only [check_completed_transcriptions, processDone_fst, processDone_snd]]
    rw [List.filter_eq_nil_iff.mpr (by intro t ht; simp [hdone t ht])]
    exact ⟨rfl, rfl⟩

/-- Witness for C3 at a concrete state: one resolved task with text
`"hi"`, a fresh record; finalization empties the table and completes the
session with `total_transcriptions = 1`. -/
theorem C3_finalize_session_witness :
    (finalize_session ⟨some (init_json_file "S" "I" "fr" "large"), ["segB"], [taskB]⟩
        "E").pending = [] ∧
    (finalize_session ⟨some (init_json_file "S" "I" "fr" "large"), ["segB"], [taskB]⟩
        "E").jsonFile
      = some { session :=
                 { (init_json_file "S" "I" "fr" "large").session with
                     end_time := some "E"
                     status := some "completed"
                     total_transcriptions :=
                       some ((init_json_file "S" "I" "fr" "large").transcriptions
                               ++ doneEntries [taskB]).length }
               transcriptions :=
                 (init_json_file "S" "I" "fr" "large").transcriptions
                   ++ doneEntries [taskB] } :=
  C3_finalize_session (init_json_file "S" "I" "fr" "large") ["segB"] [taskB] "E"
    (by decide)

/-! ### C4 -/

/-- C4: the transcription worker is total — every engine exception
resolves to `""` (likewise the missing-model guard), and a successful
engine call resolves to the raw text stripped and then cleared of each of
the artifact tokens `<|`, `|>`, `[BLANK_AUDIO]`, `(SILENCE)`, `...` in
turn; the Python function returns a `str` on every path, never `None`. -/
theorem C4_transcribe_single_total (raw : String) (loaded : Bool) :
    transcribe_single loaded .exn = "" ∧
    transcribe_single false (.ok raw) = "" ∧
    transcribe_single true (.ok raw) = stripArtifactTokens (pyStrip raw) := by
  refine ⟨?_, rfl, rfl⟩
  cases loaded <;> rfl

/-! ### C7 -/

/-- C7: one `save_transcription` call on an existing record appends
exactly the new entry at the tail and leaves the session metadata
untouched, and `N` serialized calls append exactly their `N` entries in
call order. -/
theorem C7_save_appends_exactly (d : SessionData) (text : Option String)
    (ts : String) (calls : List (Option String × String)) :
    save_transcription (some d) text ts
      = { session := d.session
          transcriptions := d.transcriptions ++ [mkEntry text ts] } ∧
    calls.foldl (fun acc c => save_transcription (some acc) c.1 c.2) d
      = { session := d.session
          transcriptions := d.transcriptions ++ calls.map fun c => mkEntry c.1 c.2 } :=
  ⟨save_transcription_some d text ts, foldl_save_transcription calls d⟩

/-! ### C8 -/

/-- C8: a done task whose engine call failed (empty text) still has its
temporary artifact deleted by the result consumer, and the deletion step
never lets an exception escape: `os.remove` on an already-absent path
raises, but the guard of the consumer swallows it and leaves the file set
unchanged. -/
theorem C8_cleanup_idempotent (j : Option SessionData) (fs : List String)
    (l1 l2 : List Task) (t : Task) (fs' : List String) (p : String)
    (hnodup : fs.Nodup) (hdone : t.done = true) (htext : t.text = "")
    (hp : p ∉ fs') :
    t.audio_file ∉ (check_completed_transcriptions ⟨j, fs, l1 ++ t :: l2⟩).files ∧
    pyRemove fs' p = .error () ∧
    pyRemoveNoRaise fs' p = fs' := by
  refine ⟨?_, ?_, ?_⟩
  · rw [check_completed_files, List.foldl_append, List.foldl_cons]
    intro hmem
    have h1 : (filesStep (l1.foldl filesStep fs) t).Nodup ∧
        t.audio_file ∉ filesStep (l1.foldl filesStep fs) t := by
      have hnd := foldl_filesStep_nodup l1 fs hnodup
      unfold filesStep
      rw [if_pos hdone]
      exact ⟨hnd.erase _, hnd.not_mem_erase⟩
    exact h1.2 (foldl_filesStep_subset l2 _ hmem)
  · unfold pyRemove
    rw [if_neg hp]
  · rw [pyRemoveNoRaise_eq_erase, List.erase_of_not_mem hp]

/-- Witness for C8: the file of the empty-text task is gone after the check,
and removing an absent path raises internally but leaves the guarded
deletion a no-op. -/
theorem C8_cleanup_idempotent_witness :
    taskA.audio_file
        ∉ (check_completed_transcriptions
            ⟨some (init_json_file "S" "I" "fr" "large"), ["segA", "other"],
              [] ++ taskA :: []⟩).files ∧
    pyRemove ["other"] "segA" = .error () ∧
    pyRemoveNoRaise ["other"] "segA" = ["other"] :=
  C8_cleanup_idempotent (some (init_json_file "S" "I" "fr" "large"))
    ["segA", "other"] [] [] taskA ["other"] "segA"
    (by decide) (by decide) (by decide) (by decide)

/-! ### C10 -/

/-- C10: when the session file is missing, `save_transcription` silently
recreates it as an empty session object (every header field absent) plus
the single new entry — so the original header written by
`init_json_file` (start time, model, language, active status) is lost
from the recreated record. -/
theorem C10_missing_file_recreated (text : Option String) (ts : String) :
    save_transcription none text ts
      = { session := emptySessionMeta, transcriptions := [mkEntry text ts] } ∧
    emptySessionMeta.start_time = none ∧
    emptySessionMeta.model = none ∧
    emptySessionMeta.language = none ∧
    emptySessionMeta.status = none ∧
    (∀ s i l m, (init_json_file s i l m).session.start_time = some s ∧
      (init_json_file s i l m).session.model = some m ∧
      (init_json_file s i l m).session.language = some l ∧
      (init_json_file s i l m).session.status = some "active") :=
  ⟨rfl, rfl, rfl, rfl, rfl, fun _ _ _ _ => ⟨rfl, rfl, rfl, rfl⟩⟩

end Whisper
